import Mathlib

/-
Verification of the user data-access module (src/client — the Mongoose user
DAO exported from the user repository file: addUser, addBasicUser, updateUser,
multiUpdateUser, deleteUser, getUser, hasUser, getCreatedEvents,
findMatchingUsers).

The MongoDB store is embedded as an explicit state `DB` holding the `User`
and `Event` collections as lists.  Each async DAO function becomes a
function from the store state (plus its arguments) to a result together
with the successor state.  A promise that settles successfully with the
JavaScript value `null` is embedded as `Option.none`; a promise that is
*rejected* (an error escaping to the caller) is embedded as `Except.error`.
Functions whose try/catch demonstrably swallows every rejection are given a
plain `Option`/`Bool` result type.

Store-level failure modelling: the unique index on `username` (the spec's
"duplicate username" constraint violation) is embedded; connectivity
failures are not — every theorem below is about a reachable store, which is
the regime all of the claims quantify over.
-/

set_option autoImplicit false

namespace UserRepo

/-- A persisted `Event` document. `_id` stands for the Mongo ObjectId,
`creator` is the back-reference to the creating user's `_id`,
`participants` the reverse reference list that `getUser`'s populate strips. -/
structure Event where
  _id : Nat
  creator : Nat
  participants : List Nat
deriving DecidableEq

/-- A persisted `User` document per the user schema: the four required string
fields plus the `participatingIn` list of `Event` references (by `_id`).
`_id` stands for the ObjectId Mongoose assigns at construction time. -/
structure User where
  _id : Nat
  firstname : String
  lastname : String
  username : String
  email : String
  participatingIn : List Nat
deriving DecidableEq

/-- A populated (joined) event as it appears inside a query result:
`participants = none` embeds the projection `["-participants"]` that strips
the field, `some l` embeds the unstripped field. -/
structure PEvent where
  _id : Nat
  creator : Nat
  participants : Option (List Nat)
deriving DecidableEq

/-- A user document whose `participatingIn` references have been populated
(joined) into event documents. -/
structure PopUser where
  _id : Nat
  firstname : String
  lastname : String
  username : String
  email : String
  participatingIn : List PEvent
deriving DecidableEq

/-- The document store: the `User` collection and the `Event` collection. -/
structure DB where
  users : List User
  events : List Event
deriving DecidableEq

/-- Store-level errors surfacing as promise rejections: violation of the
unique `username` index, or a cast failure when a value of the wrong shape
was assigned to a schema path before `save()`. -/
inductive DbErr where
  | duplicateKey
  | castError
deriving DecidableEq

/-- Projection applied by `populate("participatingIn", ["-participants"])`
(`strip = true`) versus the plain `populate("participatingIn")` used by the
update functions (`strip = false`). -/
def stripEvent (strip : Bool) (e : Event) : PEvent :=
  { _id := e._id, creator := e.creator,
    participants := if strip then none else some e.participants }

/-- Join expansion of a user's `participatingIn` references against the
event collection; dangling references are dropped, as Mongoose array
populate drops unresolved entries. -/
def populateUser (db : DB) (strip : Bool) (u : User) : PopUser :=
  { _id := u._id, firstname := u.firstname, lastname := u.lastname,
    username := u.username, email := u.email,
    participatingIn :=
      u.participatingIn.filterMap
        (fun i => (db.events.find? (fun e => e._id == i)).map (stripEvent strip)) }

/-- The string-valued schema paths that a dynamic `doc[field] = value`
assignment with a string value can set. -/
def stringFields : List String := ["firstname", "lastname", "username", "email"]

/-- All schema paths of the user schema. -/
def schemaFields : List String := stringFields ++ ["participatingIn"]

/-- Embeds the dynamic assignment `userToUpdate[field] = value` for a string
value.  A named string schema path is overwritten; any other field name sets
a plain (untracked) JavaScript property that `save()` does not persist, so on
the persisted record it is the identity.  (Assigning a string to the
array-valued `participatingIn` path is handled separately: it raises a cast
error at `save()` time, see `updateUser`/`multiUpdateUser`.) -/
def setField (u : User) (f : String) (v : String) : User :=
  if f = "firstname" then { u with firstname := v }
  else if f = "lastname" then { u with lastname := v }
  else if f = "username" then { u with username := v }
  else if f = "email" then { u with email := v }
  else u

/-- Sequential application of an ordered `[{field, value}, ...]` update list:
the loop body of `multiUpdateUser`. -/
def applyUpdates (u : User) (updates : List (String × String)) : User :=
  updates.foldl (fun acc p => setField acc p.1 p.2) u

/-- True when some user *other than* the document with id `exceptId` already
holds `name`: the condition under which the unique `username` index makes a
`save()` of an existing document reject. -/
def usernameTaken (db : DB) (exceptId : Nat) (name : String) : Bool :=
  db.users.any (fun w => w._id != exceptId && w.username == name)

/-- The store after the in-place write of a `save()` on the already-persisted
document with the given id. -/
def dbReplace (db : DB) (id : Nat) (u' : User) : DB :=
  { db with users := db.users.map (fun w => if w._id == id then u' else w) }

/-- The `save()` of an already-persisted document: replaces the stored
document with the mutated one (keyed by `_id`), rejecting on a unique-index
violation. -/
def saveExisting (db : DB) (id : Nat) (u' : User) : Except DbErr DB :=
  if usernameTaken db id u'.username then Except.error DbErr.duplicateKey
  else Except.ok (dbReplace db id u')

/-- Shared tail of `updateUser`/`multiUpdateUser`: `await userToUpdate.save()`
inside the try block — a rejection is caught and turned into the `null`
sentinel, success returns the (populated, unstripped) saved document. -/
def persistUpdate (db : DB) (id : Nat) (u' : User) : Option PopUser × DB :=
  match saveExisting db id u' with
  | Except.error _ => (none, db)
  | Except.ok db' => (some (populateUser db' false u'), db')

/-- The `save()` of a freshly constructed document: appends it to the
collection, rejecting when the unique `username` index is violated
(duplicate username). -/
def saveNew (db : DB) (u : User) : Except DbErr (User × DB) :=
  if db.users.any (fun w => w.username == u.username) then Except.error DbErr.duplicateKey
  else Except.ok (u, { db with users := db.users ++ [u] })

/-- `addUser(userObj)`.  The source constructs the document and then executes
`return newUser.save()` inside `try \x7b ... \x7d catch` — *without* `await`.
The catch block therefore only guards the synchronous call; an asynchronous
rejection of the returned promise (e.g. duplicate-key) escapes to the caller
un-caught, which is why the result type keeps the `Except` error channel and
the catch's `null` path is unreachable. -/
def addUser (db : DB) (u : User) : Except DbErr (User × DB) :=
  saveNew db u

/-- `addBasicUser(firstname, lastname, username, email)`.  Unlike `addUser`
the source *does* `await newUser.save()` inside the try block, so every
rejection is caught and becomes the `null` sentinel. -/
def addBasicUser (db : DB) (firstname lastname username email : String) :
    Option User × DB :=
  match saveNew db { _id := (db.users.map User._id).foldr max 0 + 1,
                     firstname := firstname, lastname := lastname,
                     username := username, email := email,
                     participatingIn := [] } with
  | Except.error _ => (none, db)
  | Except.ok (u, db') => (some u, db')

/-- `getUser(username)`: `findOne` by exact username with
`populate("participatingIn", ["-participants"])`.  `findOne` resolves with
`null` when no document matches, which is returned as-is. -/
def getUser (db : DB) (un : String) : Option PopUser :=
  (db.users.find? (fun w => w.username == un)).map (populateUser db true)

/-- `hasUser(username)`: `!((await getUser(username)) == null)`. -/
def hasUser (db : DB) (un : String) : Bool :=
  !(getUser db un).isNone

/-- `updateUser(username, field, value)`.  When `findOne` resolves with
`null` the dynamic assignment `userToUpdate[field] = value` throws a
`TypeError`, which the catch turns into `null` before any save is attempted.
When the user is found, the assignment happens in memory (`setField`) and a
single `save()` persists it; a cast error (string assigned to the
array-valued `participatingIn` path) or a unique-index violation rejects the
save, and the catch yields `null` with the store unchanged. -/
def updateUser (db : DB) (un f v : String) : Option PopUser × DB :=
  match db.users.find? (fun w => w.username == un) with
  | none => (none, db)
  | some u =>
    if f = "participatingIn" then (none, db)
    else persistUpdate db u._id (setField u f v)

/-- `multiUpdateUser(username, updates)`: same lookup as `updateUser`, then
the `for (const element of updates)` loop performs the assignments in order
(`applyUpdates`) and a single `save()` at the end persists the final state;
any entry targeting `participatingIn` with a string value makes that save
reject with a cast error, caught into `null`. -/
def multiUpdateUser (db : DB) (un : String) (updates : List (String × String)) :
    Option PopUser × DB :=
  match db.users.find? (fun w => w.username == un) with
  | none => (none, db)
  | some u =>
    if updates.any (fun p => p.1 == "participatingIn") then (none, db)
    else persistUpdate db u._id (applyUpdates u updates)

/-- `deleteUser(username)`: `deleteOne` removes the first matching document
(or nothing) and resolves successfully either way, so the function returns
`true`; the `false` branch is reachable only through a store failure, which
is outside the modelled regime. -/
def deleteUser (db : DB) (un : String) : Bool × DB :=
  (true, { db with users := db.users.eraseP (fun w => w.username == un) })

/-- `getCreatedEvents(username)` makes two sequential store round trips:
`getUser` and then `Event.find(\x7bcreator: user._id\x7d)`.  To expose the
documented race window the two round trips are given their own store states
`db1` and `db2` (a concurrent writer may change the store in between;
`db1 = db2` is the quiescent case, `getCreatedEvents` below).  When the
first round trip resolves with `null`, the access `user._id` throws a
`TypeError` which the catch turns into the `null` sentinel. -/
def getCreatedEvents2 (db1 db2 : DB) (un : String) : Option (List Event) :=
  match getUser db1 un with
  | none => none
  | some u => some (db2.events.filter (fun e => e.creator == u._id))

/-- `getCreatedEvents(username)` with a quiescent store: both round trips
observe the same state. -/
def getCreatedEvents (db : DB) (un : String) : Option (List Event) :=
  getCreatedEvents2 db db un

/-
Regular-expression embedding for `findMatchingUsers`.  The source forwards
`searchString` verbatim as `\x7b $regex: searchString, $options: "i" \x7d`,
so the store interprets it as a (case-insensitive, unanchored) PCRE pattern.
The embedding covers the fragment of that pattern language exercised by the
specification: literal characters, backslash escapes of non-alphanumeric
characters, the any-character wildcard `.`, and the postfix quantifiers
`*`, `+`, `?`.  Patterns outside the fragment — grouping, classes, braces,
alternation, anchors (`( ) [ ] \x7b \x7d | ^ $`), a leading or dangling
quantifier, a dangling or alphanumeric escape — are rejected by the parser;
`(`, `)`, `[` standing alone are exactly the invalid-pattern inputs the
claims are about, for which the store rejects the query and the DAO's catch
returns the `null` sentinel.
-/

/-- A single-character regex atom: a literal or the `.` wildcard. -/
inductive RAtom where
  | dot
  | lit (c : Char)
deriving DecidableEq

/-- A parsed regex token: an atom matched exactly once, zero-or-more times
(`*`), or at most once (`?`); `a+` is desugared to `a a*`. -/
inductive RTok where
  | once (a : RAtom)
  | star (a : RAtom)
  | opt (a : RAtom)
deriving DecidableEq

/-- Characters the modelled fragment rejects outright. -/
def metaChars : List Char := ['(', ')', '[', ']', '\x7b', '\x7d', '|', '^', '$']

/-- Quantifier characters; invalid when no atom precedes them. -/
def quantChars : List Char := ['*', '+', '?']

/-- Emit a still-pending atom (one that turned out to carry no quantifier)
as a plain once-matched token in front of the already-parsed tail. -/
def flushTok (pending : Option RAtom) (ts : List RTok) : List RTok :=
  match pending with
  | none => ts
  | some a => RTok.once a :: ts

/-- Single-pass parser for the modelled pattern fragment.  `pending` holds
the most recently read atom, still waiting to see whether a postfix
quantifier follows it; `none` as the overall result is an invalid (or
unmodelled) pattern, which the store answers with a query error. -/
def parseLoop : Option RAtom → List Char → Option (List RTok)
  | pending, [] => some (flushTok pending [])
  | pending, c :: rest =>
    if c ∈ metaChars then none
    else if c = '*' then
      match pending with
      | none => none
      | some a => (parseLoop none rest).map (fun ts => RTok.star a :: ts)
    else if c = '+' then
      match pending with
      | none => none
      | some a => (parseLoop none rest).map (fun ts => RTok.once a :: RTok.star a :: ts)
    else if c = '?' then
      match pending with
      | none => none
      | some a => (parseLoop none rest).map (fun ts => RTok.opt a :: ts)
    else if c = '\\' then
      match rest with
      | [] => none
      | d :: rest2 =>
        if d.isAlphanum then none
        else (parseLoop (some (RAtom.lit d)) rest2).map (fun ts => flushTok pending ts)
    else
      (parseLoop (some (if c = '.' then RAtom.dot else RAtom.lit c)) rest).map
        (fun ts => flushTok pending ts)

/-- Parses a pattern string in the modelled fragment. -/
def parseRegex (s : String) : Option (List RTok) :=
  parseLoop none s.data

/-- Case-insensitive atom-versus-character match (the `$options: "i"` flag is
always set by `findMatchingUsers`); `.` matches any character except a
newline. -/
def charMatch (a : RAtom) (c : Char) : Bool :=
  match a with
  | RAtom.dot => c != '\n'
  | RAtom.lit d => d.toLower == c.toLower

/-- Nondeterministic consumption of a starred atom: try the continuation `k`
(the rest of the pattern) on every suffix reachable by consuming characters
matched by `a`. -/
def starChase (a : RAtom) (k : List Char → Bool) : List Char → Bool
  | [] => k []
  | c :: cs => k (c :: cs) || (charMatch a c && starChase a k cs)

/-- Language membership for a token list at the head of the text:
does some prefix of `cs` match the tokens? (Since the overall match is
unanchored, a consumed token list means a match has been found.) -/
def matchToks : List RTok → List Char → Bool
  | [], _ => true
  | RTok.once a :: ts, cs =>
    match cs with
    | [] => false
    | c :: cs' => charMatch a c && matchToks ts cs'
  | RTok.opt a :: ts, cs =>
    matchToks ts cs ||
      (match cs with
       | [] => false
       | c :: cs' => charMatch a c && matchToks ts cs')
  | RTok.star a :: ts, cs => starChase a (fun cs' => matchToks ts cs') cs

/-- Unanchored search: does the pattern match starting at some position? -/
def searchToks : List RTok → List Char → Bool
  | ts, [] => matchToks ts []
  | ts, c :: cs => matchToks ts (c :: cs) || searchToks ts cs

/-- Does the pattern (already parsed) match somewhere in the string? -/
def regexTest (ts : List RTok) (s : String) : Bool :=
  searchToks ts s.data

/-- `findMatchingUsers(searchString)`: `find` on the user collection with
`username: \x7b $regex: searchString, $options: "i" \x7d`, `limit(10)`, and
`populate("participatingIn", ["-participants"])` on each returned document.
An invalid pattern makes the store reject the query; the catch returns the
`null` sentinel. -/
def findMatchingUsers (db : DB) (searchString : String) : Option (List PopUser) :=
  match parseRegex searchString with
  | none => none
  | some ts =>
    some (((db.users.filter (fun u => regexTest ts u.username)).take 10).map
      (populateUser db true))

/-- Accessor for the string-valued fields of a returned (populated) record,
used to state "the named field of the returned record equals the value". -/
def fieldOf (r : PopUser) (f : String) : Option String :=
  if f = "firstname" then some r.firstname
  else if f = "lastname" then some r.lastname
  else if f = "username" then some r.username
  else if f = "email" then some r.email
  else none

/-- Builder for concrete sample users. -/
def mkUser (id : Nat) (un : String) : User :=
  { _id := id, firstname := "F", lastname := "L", username := un,
    email := "e@x", participatingIn := [] }

/-- Store already holding a user named "bob" (for the duplicate-key run of
`addUser`). -/
def c1db : DB := { users := [mkUser 1 "bob"], events := [] }

/-- Store state at the first round trip of `getCreatedEvents`: "bob" exists
and has created the event with id 10. -/
def c2db1 : DB := { users := [mkUser 1 "bob"], events := [⟨10, 1, []⟩] }

/-- Store state at the second round trip: "bob" has vanished, but the event
he created is still present. -/
def c2db2 : DB := { users := [], events := [⟨10, 1, []⟩] }

/-- Store for the zero-created-events run: "bob" exists, no events at all. -/
def c2db3 : DB := { users := [mkUser 1 "bob"], events := [] }

/-- Single-user store for the invalid-field run of `updateUser`. -/
def c3db : DB := { users := [mkUser 1 "bob"], events := [] }

/-- Store for the search examples of `findMatchingUsers`. -/
def c4db : DB :=
  { users := [mkUser 1 "abc", mkUser 2 "axc", mkUser 3 "bob",
              mkUser 4 "bobby", mkUser 5 "Bob123"],
    events := [] }

/-- The result list `findMatchingUsers` returns on `c4db` for `"a.c"`. -/
def c4resAC : List PopUser :=
  [⟨1, "F", "L", "abc", "e@x", []⟩, ⟨2, "F", "L", "axc", "e@x", []⟩]

/-- Two-user store with distinct usernames for the delete-twice run. -/
def c5db : DB := { users := [mkUser 1 "bob", mkUser 2 "alice"], events := [] }

/-- Single-user store for the multi-update run. -/
def c6db : DB := { users := [mkUser 1 "bob"], events := [] }

/-- The later-entry-wins update list from the specification. -/
def c6ups : List (String × String) :=
  [("email", "a@x.com"), ("email", "b@x.com")]

/-- Single-user store for the update-then-get runs. -/
def c7db : DB := { users := [mkUser 1 "bob"], events := [] }

/-- Single-user store for the `hasUser` run. -/
def c8db : DB := { users := [mkUser 1 "bob"], events := [] }

/-- Single-user store for the invalid-pattern run. -/
def c9db : DB := { users := [mkUser 1 "bob"], events := [] }

/-- Single-user store for the username-reassignment run. -/
def c10db : DB := { users := [mkUser 1 "bob"], events := [] }

/-
General lemmas about lookup, erase and save on the user collection.
-/

/-- After `deleteOne` removed the one matching document (usernames are
unique), a lookup by the same username finds nothing. -/
theorem find?_eraseP_of_nodup (un : String) :
    ∀ l : List User, (l.map User.username).Nodup →
      (l.eraseP (fun w => w.username == un)).find? (fun w => w.username == un) =
        none := by
  intro l
  induction l with
  | nil => intro _; rfl
  | cons h t ih =>
    intro hnd
    rw [List.map_cons, List.nodup_cons] at hnd
    cases hp : h.username == un with
    | true =>
      simp only [List.eraseP_cons, hp, cond_true]
      rw [List.find?_eq_none]
      intro x hx hpx
      have hxeq : x.username = un := by simpa using hpx
      have hheq : h.username = un := by simpa using hp
      exact hnd.1 (by rw [hheq, ← hxeq]; exact List.mem_map_of_mem _ hx)
    | false =>
      simp only [List.eraseP_cons, hp, cond_false, List.find?_cons]
      exact ih hnd.2

/-- A `save()` keyed on the id of the user a lookup just found is re-found by
the same username lookup, provided the mutated document kept that username. -/
theorem find?_map_replace_same (un : String) (u u' : User)
    (h' : (u'.username == un) = true) :
    ∀ l : List User, l.find? (fun w => w.username == un) = some u →
      (l.map (fun w => if w._id == u._id then u' else w)).find?
        (fun w => w.username == un) = some u' := by
  intro l
  induction l with
  | nil => intro h; simp at h
  | cons a t ih =>
    intro hf
    cases hp : a.username == un with
    | true =>
      have ha : a = u := by
        simp only [List.find?_cons, hp] at hf
        exact Option.some.inj hf
      subst ha
      rw [List.map_cons]
      have hrw : (if a._id == a._id then u' else a) = u' := by simp
      rw [hrw]
      simp only [List.find?_cons, h']
    | false =>
      simp only [List.find?_cons, hp] at hf
      rw [List.map_cons]
      by_cases hid : (a._id == u._id) = true
      · rw [if_pos hid]
        simp only [List.find?_cons, h']
      · rw [if_neg hid]
        simp only [List.find?_cons, hp]
        exact ih hf

/-- A `save()` that renamed the found user to a previously unused username is
found by a lookup under the new name. -/
theorem find?_map_replace_rename (un nn : String) (u u' : User)
    (h' : (u'.username == nn) = true) :
    ∀ l : List User, l.find? (fun w => w.username == un) = some u →
      (∀ x ∈ l, ¬((x.username == nn) = true)) →
      (l.map (fun w => if w._id == u._id then u' else w)).find?
        (fun w => w.username == nn) = some u' := by
  intro l
  induction l with
  | nil => intro h _; simp at h
  | cons a t ih =>
    intro hf hfr
    rw [List.map_cons]
    by_cases hid : (a._id == u._id) = true
    · rw [if_pos hid]
      simp only [List.find?_cons, h']
    · rw [if_neg hid]
      have hpa : (a.username == nn) = false := by
        have := hfr a (List.mem_cons_self a t)
        simpa using this
      simp only [List.find?_cons, hpa]
      cases hp : a.username == un with
      | true =>
        exfalso
        simp only [List.find?_cons, hp] at hf
        have ha : a = u := Option.some.inj hf
        subst ha
        exact hid (by simp)
      | false =>
        simp only [List.find?_cons, hp] at hf
        exact ih hf (fun x hx => hfr x (List.mem_cons_of_mem _ hx))

/-- A `save()` that changed the found user's username away from `un` (with
unique usernames) leaves no document a lookup by `un` can find. -/
theorem find?_map_replace_gone (un : String) (u u' : User)
    (h' : ¬((u'.username == un) = true)) :
    ∀ l : List User, (l.map User.username).Nodup →
      l.find? (fun w => w.username == un) = some u →
      (l.map (fun w => if w._id == u._id then u' else w)).find?
        (fun w => w.username == un) = none := by
  intro l hnd hf
  rw [List.find?_eq_none]
  intro x hx hpx
  rw [List.mem_map] at hx
  obtain ⟨w, hwl, hwx⟩ := hx
  by_cases hid : (w._id == u._id) = true
  · rw [if_pos hid] at hwx
    subst hwx
    exact h' hpx
  · rw [if_neg hid] at hwx
    subst hwx
    have hu_mem : u ∈ l := List.mem_of_find?_eq_some hf
    have hu_name := List.find?_some hf
    have hwu : w = u := by
      apply List.inj_on_of_nodup_map hnd hwl hu_mem
      have h1 : w.username = un := by simpa using hpx
      have h2 : u.username = un := by simpa using hu_name
      rw [h1, h2]
    subst hwu
    exact hid (by simp)

/-- With unique usernames, saving the found document back under its own
username violates no unique index. -/
theorem usernameTaken_eq_false (db : DB) (un : String) (u : User)
    (hnd : (db.users.map User.username).Nodup)
    (hf : db.users.find? (fun w => w.username == un) = some u) :
    usernameTaken db u._id u.username = false := by
  unfold usernameTaken
  rw [List.any_eq_false]
  intro w hw hcontra
  rw [Bool.and_eq_true] at hcontra
  obtain ⟨hne, hname⟩ := hcontra
  have hu_mem : u ∈ db.users := List.mem_of_find?_eq_some hf
  have hwu : w = u := List.inj_on_of_nodup_map hnd hw hu_mem (by simpa using hname)
  subst hwu
  simp at hne

/-- Saving under a username nobody holds violates no unique index. -/
theorem usernameTaken_eq_false_of_fresh (db : DB) (nn : String) (id : Nat)
    (hfr : ∀ x ∈ db.users, ¬((x.username == nn) = true)) :
    usernameTaken db id nn = false := by
  unfold usernameTaken
  rw [List.any_eq_false]
  intro w hw hcontra
  rw [Bool.and_eq_true] at hcontra
  exact hfr w hw hcontra.2

/-- Evaluation of `updateUser` when the lookup succeeds, the field is a
tracked non-reference path, and the save commits. -/
theorem updateUser_found (db : DB) (un f v : String) (u : User)
    (hf : db.users.find? (fun w => w.username == un) = some u)
    (hpart : ¬f = "participatingIn")
    (htaken : usernameTaken db u._id (setField u f v).username = false) :
    updateUser db un f v =
      (some (populateUser (dbReplace db u._id (setField u f v)) false
        (setField u f v)),
       dbReplace db u._id (setField u f v)) := by
  simp [updateUser, hf, hpart, persistUpdate, saveExisting, htaken]

/-- Assigning the same field twice leaves only the later value: dynamic
assignment overwrites. -/
theorem setField_overwrite (u : User) (f a b : String) :
    setField (setField u f a) f b = setField u f b := by
  unfold setField
  split_ifs <;> rfl

/-
The claims.
-/

/-- C1: the claim that `addUser` never surfaces a rejected promise — that a
constraint violation such as a duplicate username yields the `null` failure
sentinel — is false of the code: `newUser.save()` is returned from the try
block without `await`, so the duplicate-key rejection escapes to the caller.
This run evaluates `addUser` on a store already holding the username being
added and observes the escaping rejection, contradicting the function's own
doc comment ("the saved document, or null if something went wrong"); the
awaited `addBasicUser` on the same input swallows the same rejection into
the `null` sentinel, as the second conjunct shows. -/
theorem c1_addUser_rejects_on_duplicate :
    addUser c1db (mkUser 2 "bob") = Except.error DbErr.duplicateKey
    ∧ (addBasicUser c1db "F" "L" "bob" "e@x").1 = none :=
  ⟨rfl, rfl⟩

/-- C2 (counterexample): the claim says that when the user vanished between
the two round trips, `getCreatedEvents` returns an *empty* collection.  In
the run below "bob" exists at the first round trip, is gone at the second
(`getUser` on the second state is `none`), yet the second query still finds
the event whose `creator` is the captured id — the result is a non-empty
collection, not the claimed empty one (and not a failure sentinel either). -/
theorem c2_createdEvents_counterexample :
    getUser c2db2 "bob" = none
    ∧ getCreatedEvents2 c2db1 c2db2 "bob" = some [⟨10, 1, []⟩]
    ∧ getCreatedEvents2 c2db1 c2db2 "bob" ≠ some [] := by
  refine ⟨by decide, by decide, by decide⟩

/-- C2 (amended): whenever the first-round lookup finds the user,
`getCreatedEvents` succeeds with no failure sentinel and returns exactly the
events of the second-round store whose `creator` equals the captured id —
the empty collection when no such events exist, in particular for an
existing user with zero created events. -/
theorem c2_createdEvents_of_captured_id (db1 db2 : DB) (un : String)
    (u : PopUser) (h : getUser db1 un = some u) :
    getCreatedEvents2 db1 db2 un =
        some (db2.events.filter (fun e => e.creator == u._id))
    ∧ (db1.events.filter (fun e => e.creator == u._id) = [] →
        getCreatedEvents db1 un = some []) := by
  constructor
  · simp [getCreatedEvents2, h]
  · intro hempty
    simp [getCreatedEvents, getCreatedEvents2, h, hempty]

/-- C2 (witness): on a store where "bob" exists and no events exist at all,
the amended theorem yields the empty collection, not a sentinel. -/
theorem c2_createdEvents_witness :
    getCreatedEvents c2db3 "bob" = some [] :=
  (c2_createdEvents_of_captured_id c2db3 c2db3 "bob"
    ⟨1, "F", "L", "bob", "e@x", []⟩ (by decide)).2 (by decide)

/-- C3 (counterexample): the claim says `updateUser` returns the `null`
sentinel whenever the field is not a valid schema field, for every existing
username.  On a store with existing user "bob" and the non-schema field
"notAField" the call returns the saved record, not `null`. -/
theorem c3_invalid_field_counterexample :
    "notAField" ∉ schemaFields
    ∧ (getUser c3db "bob").isSome = true
    ∧ (updateUser c3db "bob" "notAField" "x").1 ≠ none := by
  refine ⟨by decide, by decide, by decide⟩

/-- C3 (amended): `updateUser` performs no validation of the field name — for
an existing username (usernames unique) and any field name outside the
schema, the dynamic assignment sets an untracked property, the save commits,
and the call returns the saved record (unchanged on every schema path)
rather than the `null` sentinel. -/
theorem c3_updateUser_invalid_field (db : DB) (un f v : String) (u : User)
    (hnd : (db.users.map User.username).Nodup)
    (hf : db.users.find? (fun w => w.username == un) = some u)
    (hinvalid : f ∉ schemaFields) :
    (updateUser db un f v).1 =
      some (populateUser (updateUser db un f v).2 false u) := by
  have hne : ¬f = "firstname" ∧ ¬f = "lastname" ∧ ¬f = "username"
      ∧ ¬f = "email" ∧ ¬f = "participatingIn" := by
    simpa [schemaFields, stringFields, not_or] using hinvalid
  have hsf : setField u f v = u := by
    unfold setField
    rw [if_neg hne.1, if_neg hne.2.1, if_neg hne.2.2.1, if_neg hne.2.2.2.1]
  have htaken : usernameTaken db u._id (setField u f v).username = false := by
    rw [hsf]
    exact usernameTaken_eq_false db un u hnd hf
  have key := updateUser_found db un f v u hf hne.2.2.2.2 htaken
  rw [key, hsf]

/-- C3 (witness): the amended theorem evaluated on the concrete store. -/
theorem c3_invalid_field_witness :
    (updateUser c3db "bob" "notAField" "x").1 =
      some (populateUser (updateUser c3db "bob" "notAField" "x").2 false
        (mkUser 1 "bob")) :=
  c3_updateUser_invalid_field c3db "bob" "notAField" "x" (mkUser 1 "bob")
    (by decide) (by decide) (by decide)

/-- C4: `findMatchingUsers` treats the input as a case-insensitive regex over
usernames — "a.c" (dot wildcard) matches both "abc" and "axc", "bob" matches
"bob", "bobby" and "Bob123" — and every successful result holds at most 10
matches. -/
theorem c4_findMatchingUsers_regex :
    ((findMatchingUsers c4db "a.c").map (fun l => l.map PopUser.username) =
      some ["abc", "axc"])
    ∧ ((findMatchingUsers c4db "bob").map (fun l => l.map PopUser.username) =
      some ["bob", "bobby", "Bob123"])
    ∧ ∀ (db : DB) (p : String) (l : List PopUser),
        findMatchingUsers db p = some l → l.length ≤ 10 := by
  refine ⟨by decide, by decide, ?_⟩
  intro db p l h
  unfold findMatchingUsers at h
  cases hp : parseRegex p with
  | none => rw [hp] at h; cases h
  | some ts =>
    rw [hp] at h
    have hl := Option.some.inj h
    rw [← hl, List.length_map, List.length_take]
    exact Nat.min_le_left _ _

/-- C4 (witness): the length bound applied at a concrete query. -/
theorem c4_findMatchingUsers_witness : c4resAC.length ≤ 10 :=
  c4_findMatchingUsers_regex.2.2 c4db "a.c" c4resAC (by decide)

/-- C5: `deleteUser` is idempotent — on a store with unique usernames both
consecutive deletions of the same username report `true` (the second finding
nothing to delete), and `getUser` afterwards reports the not-found
sentinel. -/
theorem c5_deleteUser_idempotent (db : DB) (un : String)
    (hnd : (db.users.map User.username).Nodup) :
    (deleteUser db un).1 = true
    ∧ (deleteUser (deleteUser db un).2 un).1 = true
    ∧ getUser (deleteUser (deleteUser db un).2 un).2 un = none := by
  refine ⟨rfl, rfl, ?_⟩
  have hsub : List.Sublist (db.users.eraseP (fun w => w.username == un))
      db.users :=
    List.eraseP_sublist db.users
  have hnd1 : ((db.users.eraseP (fun w => w.username == un)).map
      User.username).Nodup :=
    List.Nodup.sublist (hsub.map User.username) hnd
  have h2 := find?_eraseP_of_nodup un
    (db.users.eraseP (fun w => w.username == un)) hnd1
  simp [getUser, deleteUser, h2]

/-- C5 (witness): the idempotent double delete on the concrete store. -/
theorem c5_deleteUser_witness :
    (deleteUser c5db "bob").1 = true
    ∧ (deleteUser (deleteUser c5db "bob").2 "bob").1 = true
    ∧ getUser (deleteUser (deleteUser c5db "bob").2 "bob").2 "bob" = none :=
  c5_deleteUser_idempotent c5db "bob" (by decide)

/-- C6: when the lookup succeeds and no entry targets the reference path,
`multiUpdateUser` equals the sequential fold of its update list followed by a
single persistence step (`persistUpdate`, one `save()` of the final value);
and within the fold a later entry for the same field overwrites an earlier
one, so the later entry wins. -/
theorem c6_multiUpdate_fold_single_save (db : DB) (un : String)
    (ups rest : List (String × String)) (u : User) (f a b : String)
    (hf : db.users.find? (fun w => w.username == un) = some u)
    (hc : ups.any (fun p => p.1 == "participatingIn") = false) :
    multiUpdateUser db un ups = persistUpdate db u._id (applyUpdates u ups)
    ∧ applyUpdates u ((f, a) :: (f, b) :: rest) =
        applyUpdates (setField u f b) rest := by
  constructor
  · simp [multiUpdateUser, hf, hc]
  · simp only [applyUpdates, List.foldl_cons]
    rw [setField_overwrite]

/-- C6 (witness): the specification's own example — updates
`[a@x.com, b@x.com]` on `email` — run through the theorem, plus the
evaluation showing the persisted email is the later value. -/
theorem c6_multiUpdate_witness :
    (multiUpdateUser c6db "bob" c6ups =
        persistUpdate c6db (mkUser 1 "bob")._id
          (applyUpdates (mkUser 1 "bob") c6ups)
      ∧ applyUpdates (mkUser 1 "bob")
          (("email", "a@x.com") :: ("email", "b@x.com") :: []) =
        applyUpdates (setField (mkUser 1 "bob") "email" "b@x.com") [])
    ∧ (multiUpdateUser c6db "bob" c6ups).1.map PopUser.email =
        some "b@x.com" :=
  ⟨c6_multiUpdate_fold_single_save c6db "bob" c6ups [] (mkUser 1 "bob")
      "email" "a@x.com" "b@x.com" (by decide) (by decide),
   by decide⟩

/-- C7 (counterexample): the claim ranges over every valid field, but
"username" is itself a valid (string schema) field, and updating it breaks
the claimed round trip: after `updateUser(bob, "username", "carl")` succeeds,
`getUser("bob")` returns the not-found sentinel, not a record carrying the
new value. -/
theorem c7_update_then_get_counterexample :
    "username" ∈ stringFields
    ∧ (updateUser c7db "bob" "username" "carl").1.isSome = true
    ∧ getUser (updateUser c7db "bob" "username" "carl").2 "bob" = none := by
  refine ⟨by decide, by decide, by decide⟩

/-- C7 (amended): for an existing username (usernames unique) and a valid
field other than the lookup key itself — firstname, lastname or email —
`updateUser` returns the saved record and a subsequent `getUser` on the same
username returns a record whose named field equals the new value; and
`updateUser` on a username with no matching user returns the `null` failure
sentinel with the store unchanged. -/
theorem c7_updateField_then_getUser (db : DB) (un un2 f v : String) (u : User)
    (hnd : (db.users.map User.username).Nodup)
    (hf : db.users.find? (fun w => w.username == un) = some u)
    (hfield : f = "firstname" ∨ f = "lastname" ∨ f = "email")
    (hmiss : db.users.find? (fun w => w.username == un2) = none) :
    (updateUser db un f v).1 =
        some (populateUser (updateUser db un f v).2 false (setField u f v))
    ∧ getUser (updateUser db un f v).2 un =
        some (populateUser (updateUser db un f v).2 true (setField u f v))
    ∧ fieldOf (populateUser (updateUser db un f v).2 true (setField u f v)) f =
        some v
    ∧ updateUser db un2 f v = (none, db) := by
  have hname : (setField u f v).username = u.username := by
    rcases hfield with rfl | rfl | rfl <;> rfl
  have hpart : ¬f = "participatingIn" := by
    rcases hfield with rfl | rfl | rfl <;> decide
  have htaken : usernameTaken db u._id (setField u f v).username = false := by
    rw [hname]
    exact usernameTaken_eq_false db un u hnd hf
  have key := updateUser_found db un f v u hf hpart htaken
  have hbeq : ((setField u f v).username == un) = true := by
    have h0 := List.find?_some hf
    rw [hname]
    exact h0
  refine ⟨?_, ?_, ?_, ?_⟩
  · rw [key]
  · have hfind := find?_map_replace_same un u (setField u f v) hbeq db.users hf
    rw [key]
    simp only [getUser, dbReplace]
    rw [hfind]
    rfl
  · rcases hfield with rfl | rfl | rfl <;> rfl
  · simp [updateUser, hmiss]

/-- C7 (witness): the amended round trip at a concrete store and field. -/
theorem c7_updateField_witness :
    fieldOf (populateUser (updateUser c7db "bob" "email" "n@x").2 true
      (setField (mkUser 1 "bob") "email" "n@x")) "email" = some "n@x" :=
  (c7_updateField_then_getUser c7db "bob" "zed" "email" "n@x" (mkUser 1 "bob")
    (by decide) (by decide) (Or.inr (Or.inr rfl)) (by decide)).2.2.1

/-- C8: `hasUser` returns `true` exactly when `getUser` on the same username
does not return the not-found sentinel. -/
theorem c8_hasUser_iff_getUser (db : DB) (un : String) :
    hasUser db un = true ↔ getUser db un ≠ none := by
  unfold hasUser
  cases h : getUser db un <;> simp [h]

/-- C8 (witness): the equivalence instantiated at a concrete store. -/
theorem c8_hasUser_witness :
    hasUser c8db "bob" = true ↔ getUser c8db "bob" ≠ none :=
  c8_hasUser_iff_getUser c8db "bob"

/-- C9: a syntactically invalid search pattern (in the modelled pattern
fragment, e.g. the lone "(") makes the store reject the `$regex` query; the
rejection is caught and `findMatchingUsers` returns the `null` failure
sentinel rather than throwing or returning an empty list. -/
theorem c9_invalid_pattern_null (db : DB) (p : String)
    (h : parseRegex p = none) :
    findMatchingUsers db p = none := by
  simp [findMatchingUsers, h]

/-- C9 (witness): the invalid pattern "(" on a concrete store. -/
theorem c9_invalid_pattern_witness :
    parseRegex "(" = none ∧ findMatchingUsers c9db "(" = none :=
  ⟨by decide, c9_invalid_pattern_null c9db "(" (by decide)⟩

/-- C10: the unique lookup key is mutable through `updateUser` — renaming an
existing user to an unused username succeeds, after which `getUser` under
the new name returns the record and `getUser` under the old name returns the
not-found sentinel. -/
theorem c10_username_key_mutable (db : DB) (un nn : String) (u : User)
    (hnd : (db.users.map User.username).Nodup)
    (hf : db.users.find? (fun w => w.username == un) = some u)
    (hfresh : db.users.find? (fun w => w.username == nn) = none) :
    (updateUser db un "username" nn).1.isSome = true
    ∧ getUser (updateUser db un "username" nn).2 nn =
        some (populateUser (updateUser db un "username" nn).2 true
          (setField u "username" nn))
    ∧ getUser (updateUser db un "username" nn).2 un = none := by
  have hfr : ∀ x ∈ db.users, ¬((x.username == nn) = true) := by
    rw [List.find?_eq_none] at hfresh
    exact hfresh
  have hu2name : (setField u "username" nn).username = nn := rfl
  have htaken : usernameTaken db u._id (setField u "username" nn).username =
      false := by
    rw [hu2name]
    exact usernameTaken_eq_false_of_fresh db nn u._id hfr
  have key := updateUser_found db un "username" nn u hf (by decide) htaken
  have hu_mem : u ∈ db.users := List.mem_of_find?_eq_some hf
  have hu_name : u.username = un := by simpa using List.find?_some hf
  have hbeq2 : ((setField u "username" nn).username == nn) = true := by
    rw [hu2name]
    simp
  have hnoteq : ¬(((setField u "username" nn).username == un) = true) := by
    rw [hu2name]
    intro hb
    have hnn : nn = un := by simpa using hb
    apply hfr u hu_mem
    rw [hu_name, hnn]
    simp
  refine ⟨?_, ?_, ?_⟩
  · rw [key]
    rfl
  · have hfind := find?_map_replace_rename un nn u (setField u "username" nn)
      hbeq2 db.users hf hfr
    rw [key]
    simp only [getUser, dbReplace]
    rw [hfind]
    rfl
  · have hgone := find?_map_replace_gone un u (setField u "username" nn)
      hnoteq db.users hnd hf
    rw [key]
    simp only [getUser, dbReplace]
    rw [hgone]
    rfl

/-- C10 (witness): renaming "bob" to "carl" on the concrete store makes the
old username unlookupable. -/
theorem c10_username_witness :
    getUser (updateUser c10db "bob" "username" "carl").2 "bob" = none :=
  (c10_username_key_mutable c10db "bob" "carl" (mkUser 1 "bob")
    (by decide) (by decide) (by decide)).2.2

end UserRepo
